import Mathlib

set_option linter.unusedVariables false

/-!
Shallow embedding of the session-scoped AI routing, aggregation and
chunking core of `src/bot.py` (classes `AIChatBot`, handlers
`button_handler`, `handle_message`, `status_command`).

Python strings are modelled as Lean `String` / `List Char`
(sequences of Unicode code points, matching Python `len` and slicing).
The two network-bound adapter calls are made explicit by passing in an
abstract outcome of the single outbound request each adapter performs:
the adapter body is then a pure function of that outcome, translated
branch by branch from the source.
-/

namespace Bot

/-- The two LLM providers wired into the bot (`gemini_chat`, `grok_chat`). -/
inductive Provider where
  | gemini
  | grok
deriving DecidableEq, Repr

/-- Spec-level tag for an adapter outcome: `Success(providerId, text)` or
`Failure(providerId, reason)`.  In the source both are plain strings; the
failure branches are exactly the `return "❌ ..."` statements, tagged here
with the provider and the reason string the code builds. -/
inductive BackendResult where
  | success (provider : Provider) (text : String)
  | failure (provider : Provider) (reason : String)
deriving DecidableEq, Repr

/-- The provider a result belongs to. -/
def BackendResult.provider : BackendResult → Provider
  | .success p _ => p
  | .failure p _ => p

/-- The plain string the Python adapter returned (response text or error text). -/
def BackendResult.text : BackendResult → String
  | .success _ t => t
  | .failure _ r => r

/-- Whether the result is a failure. -/
def BackendResult.isFailure : BackendResult → Bool
  | .success _ _ => false
  | .failure _ _ => true

/-- State of `AIChatBot` after `__init__`: whether a Gemini model object was
created, and the stored Grok API key (already `None` if it was the
placeholder). -/
structure AIChatBot where
  geminiModel : Bool
  grokApiKey : Option String
deriving DecidableEq, Repr

/-- `AIChatBot.__init__`: the Gemini model is created iff `GEMINI_API_KEY` is
present, truthy (non-empty) and not the placeholder; the Grok key is stored
as-is except that the placeholder is replaced by `None`.  `none` models an
unset environment variable. -/
def initBot (geminiKey grokKey : Option String) : AIChatBot :=
  { geminiModel :=
      match geminiKey with
      | some k => (k != "") && (k != "your_gemini_api_key_here")
      | none => false
    grokApiKey :=
      match grokKey with
      | some k => if k = "your_grok_api_key_here" then none else some k
      | none => none }

/-- Outcome of the one Gemini SDK call `generate_content` + `.text`:
either it produced text, or it raised (network failure, malformed
response, content-safety refusal — the SDK surfaces all of these as
exceptions, which the source catches). -/
inductive GeminiNet where
  | ok (text : String)
  | exn (msg : String)

/-- Outcome of the one Grok HTTP POST: either a response with a status
code, a raw body text, and the result of extracting
`choices[0].message.content` from the JSON body (`Except.error` models
the exception a malformed body raises), or an exception raised by the
request itself (network failure, timeout). -/
inductive GrokNet where
  | response (status : Nat) (rawText : String) (content : Except String String)
  | netError (msg : String)

/-- The exact string `gemini_chat` returns when no model is configured. -/
def geminiNotConfiguredMsg : String :=
  "❌ Gemini API key not configured. Please add GEMINI_API_KEY to environment variables."

/-- The exact string `grok_chat` returns when no key is configured. -/
def grokNotConfiguredMsg : String :=
  "❌ Grok API key not configured. Please add GROK_API_KEY to environment variables."

/-- `AIChatBot.gemini_chat`, branch for branch.  The second component
records whether the network (SDK) call was made. -/
def geminiChat (bot : AIChatBot) (message : String) (net : GeminiNet) :
    BackendResult × Bool :=
  if bot.geminiModel = false then
    (.failure .gemini geminiNotConfiguredMsg, false)
  else
    match net with
    | .ok t => (.success .gemini t, true)
    | .exn e => (.failure .gemini ("❌ Gemini Error: " ++ e), true)

/-- `AIChatBot.grok_chat`, branch for branch.  `if not self.grok_api_key`
is Python truthiness: the key is `None` or the empty string.  The second
component records whether the HTTP request was made. -/
def grokChat (bot : AIChatBot) (message : String) (net : GrokNet) :
    BackendResult × Bool :=
  match bot.grokApiKey with
  | none => (.failure .grok grokNotConfiguredMsg, false)
  | some k =>
    if k = "" then
      (.failure .grok grokNotConfiguredMsg, false)
    else
      match net with
      | .response status rawText content =>
        if status = 200 then
          match content with
          | .ok text => (.success .grok text, true)
          | .error e => (.failure .grok ("❌ Grok Error: " ++ e), true)
        else
          (.failure .grok
            ("❌ Grok API Error: " ++ toString status ++ " - " ++ rawText), true)
      | .netError e => (.failure .grok ("❌ Grok Error: " ++ e), true)

/-- Python `sep.join(list)`. -/
def joinWith (sep : String) : List String → String
  | [] => ""
  | s :: rest => rest.foldl (fun acc t => acc ++ sep ++ t) s

/-- The per-provider label prepended in `handle_message`. -/
def geminiLabel : String := "🔷 *Gemini Pro:*\n"

/-- The per-provider label prepended in `handle_message`. -/
def grokLabel : String := "🤖 *Grok AI:*\n"

/-- `"═" * 30` from line 256 of the source. -/
def separatorBar : String := String.mk (List.replicate 30 '═')

/-- Output of the dispatch section of `handle_message` (lines 242-264):
the per-provider results collected into `responses` (in append order),
the `final_response` string (`none` when no branch matched, i.e. the
variable stays unbound), and the adapters actually invoked, in call
order. -/
structure RouteOutput where
  results : List BackendResult
  final : Option String
  invoked : List Provider
deriving Repr

/-- The `if ai_choice == ...` dispatch chain of `handle_message`,
translated branch by branch.  In the `both_ai` branch the source awaits
`gemini_chat` to completion, appends its labelled text, then awaits
`grok_chat` and appends its labelled text, then builds
`"\n\n" + "═" * 30 + "\n\n".join(responses)` (operator precedence: the
bar is a one-off prefix, the join separator is the blank line). -/
def dispatch (bot : AIChatBot) (msg : String) (gNet : GeminiNet) (kNet : GrokNet)
    (aiChoice : String) : RouteOutput :=
  if aiChoice = "both_ai" then
    let g := (geminiChat bot msg gNet).1
    let k := (grokChat bot msg kNet).1
    let responses : List String := [geminiLabel ++ g.text, grokLabel ++ k.text]
    { results := [g, k]
      final := some ("\n\n" ++ separatorBar ++ joinWith "\n\n" responses)
      invoked := [.gemini, .grok] }
  else if aiChoice = "gemini" then
    let g := (geminiChat bot msg gNet).1
    { results := [g]
      final := some (geminiLabel ++ g.text)
      invoked := [.gemini] }
  else if aiChoice = "grok" then
    let k := (grokChat bot msg kNet).1
    { results := [k]
      final := some (grokLabel ++ k.text)
      invoked := [.grok] }
  else
    { results := [], final := none, invoked := [] }

/-- The per-session store `context.user_data` restricted to the
`ai_choice` key: a map from session id to the stored mode string. -/
abbrev Store := Nat → Option String

/-- A fresh store: no session has selected a mode. -/
def emptyStore : Store := fun _ => none

/-- `context.user_data.get('ai_choice', 'gemini')` — the default mode is
the fixed string `'gemini'`; reading does not mutate the store. -/
def getMode (store : Store) (sid : Nat) : String :=
  (store sid).getD "gemini"

/-- `context.user_data['ai_choice'] = m` for session `sid`. -/
def setMode (store : Store) (sid : Nat) (m : String) : Store :=
  fun j => if j = sid then some m else store j

/-- The chunk loop `for i in range(0, len(t), 4000): t[i:i+4000]` over a
Python string viewed as its code-point sequence. -/
def telegramChunks : List Char → List (List Char)
  | [] => []
  | c :: cs => ((c :: cs).take 4000) :: telegramChunks ((c :: cs).drop 4000)
termination_by l => l.length
decreasing_by
  simp only [List.length_drop, List.length_cons]
  omega

/-- The split step of `handle_message` (lines 266-283): texts longer than
4000 code points are sent as the 4000-sized slices produced by the chunk
loop; shorter texts are sent as one message. -/
def splitStep (T : List Char) : List (List Char) :=
  if T.length > 4000 then telegramChunks T else [T]

/-- The reply `handle_message` produces for the transport: a sequence of
chunk messages, a single message (with quick-action buttons), or the
generic `"❌ *Oops! Something went wrong.*"` error text sent by the
`except` handler. -/
inductive Reply where
  | fragments (frags : List (List Char))
  | single (text : List Char)
  | errorReply
deriving DecidableEq, Repr

/-- Result of one `handle_message` call: the store after the call, the
reply, and the adapters invoked. -/
structure HandleOutput where
  store : Store
  reply : Reply
  invoked : List Provider

/-- `handle_message`: read the session's mode with
`user_data.get('ai_choice', 'gemini')` (never writing it), run the
dispatch chain, then either split the final response at 4000 code points
or send it whole; if no dispatch branch matched, `final_response` is
unbound, the length test raises, and the `except` handler sends the
generic error text. -/
def handleMessage (bot : AIChatBot) (msg : String) (gNet : GeminiNet) (kNet : GrokNet)
    (store : Store) (sid : Nat) : HandleOutput :=
  let aiChoice := getMode store sid
  let r := dispatch bot msg gNet kNet aiChoice
  { store := store
    reply :=
      match r.final with
      | some final =>
        if final.toList.length > 4000 then .fragments (telegramChunks final.toList)
        else .single final.toList
      | none => .errorReply
    invoked := r.invoked }

/-- What `button_handler` did after answering the callback: showed help,
showed the start menu, confirmed an AI selection, or raised `KeyError`
on the `ai_info[ai_choice]` lookup. -/
inductive ButtonOutcome where
  | helpShown
  | startShown
  | confirmed (name : String)
  | keyError (key : String)
deriving DecidableEq, Repr

/-- The `name` field of the `ai_info` dict in `button_handler`. -/
def aiInfoName (c : String) : Option String :=
  if c = "gemini" then some "🔷 Gemini Pro"
  else if c = "grok" then some "🤖 Grok AI"
  else if c = "both_ai" then some "🔄 Both AIs"
  else none

/-- `button_handler`: `help` and `start_chat` return early; every other
callback datum is stored into `user_data['ai_choice']` first, and only
then looked up in `ai_info` — an unknown datum therefore raises
`KeyError` after the store was already mutated. -/
def buttonHandler (store : Store) (sid : Nat) (choice : String) :
    Store × ButtonOutcome :=
  if choice = "help" then (store, .helpShown)
  else if choice = "start_chat" then (store, .startShown)
  else
    let store2 := setMode store sid choice
    match aiInfoName choice with
    | some name => (store2, .confirmed name)
    | none => (store2, .keyError choice)

/-- Elapsed time of the dispatch chain under an abstract cost model:
`dg` / `dk` are the durations of the Gemini / Grok network calls (a call
that short-circuits before the network costs nothing).  In the `both_ai`
branch the source awaits `gemini_chat` to completion before it even
starts `grok_chat` (two sequential awaits, no task gathering), so the
durations add. -/
def dispatchLatency (bot : AIChatBot) (msg : String) (gNet : GeminiNet) (kNet : GrokNet)
    (aiChoice : String) (dg dk : Nat) : Nat :=
  if aiChoice = "both_ai" then
    (if (geminiChat bot msg gNet).2 then dg else 0) +
      (if (grokChat bot msg kNet).2 then dk else 0)
  else if aiChoice = "gemini" then
    (if (geminiChat bot msg gNet).2 then dg else 0)
  else if aiChoice = "grok" then
    (if (grokChat bot msg kNet).2 then dk else 0)
  else 0

/-- The latency bound the spec claims for concurrent dispatch: the
slowest of the two backends. -/
def slowestBackendBound (dg dk : Nat) : Nat := max dg dk

/-- Availability as `status_command` checks it: Gemini is available iff
the model object exists, Grok iff the stored key is truthy; canonical
order Gemini before Grok, as everywhere in the source. -/
def availableProviders (bot : AIChatBot) : List Provider :=
  (if bot.geminiModel then [Provider.gemini] else []) ++
    (if (match bot.grokApiKey with | some k => k != "" | none => false) then
      [Provider.grok] else [])

/-- The canonical provider order used by the `both_ai` dispatch and the
status listing. -/
def canonicalProviders : List Provider := [.gemini, .grok]

/-- The string key under which `handle_message` dispatches a provider. -/
def providerName : Provider → String
  | .gemini => "gemini"
  | .grok => "grok"

/-- A bot with both providers configured. -/
def fullBot : AIChatBot := { geminiModel := true, grokApiKey := some "k" }

/-- A bot with only Grok configured. -/
def grokOnlyBot : AIChatBot := { geminiModel := false, grokApiKey := some "k" }

/-! ### Chunker lemmas -/

theorem telegramChunks_nil : telegramChunks [] = [] := by
  simp [telegramChunks]

theorem telegramChunks_cons (c : Char) (cs : List Char) :
    telegramChunks (c :: cs) =
      ((c :: cs).take 4000) :: telegramChunks ((c :: cs).drop 4000) := by
  rw [telegramChunks]

theorem telegramChunks_join (l : List Char) : (telegramChunks l).flatten = l := by
  have h : ∀ n, ∀ l : List Char, l.length ≤ n → (telegramChunks l).flatten = l := by
    intro n
    induction n with
    | zero =>
      intro l hl
      have hnil : l = [] := List.length_eq_zero.mp (Nat.le_zero.mp hl)
      subst hnil
      simp [telegramChunks]
    | succ n ih =>
      intro l hl
      cases l with
      | nil => simp [telegramChunks]
      | cons c cs =>
        have hd : ((c :: cs).drop 4000).length ≤ n := by
          simp only [List.length_drop, List.length_cons]
          simp only [List.length_cons] at hl
          omega
        rw [telegramChunks_cons, List.flatten_cons, ih _ hd, List.take_append_drop]
  exact h l.length l (Nat.le_refl _)

theorem telegramChunks_sizes (l : List Char) :
    ∀ f ∈ telegramChunks l, f.length ≤ 4000 := by
  have h : ∀ n, ∀ l : List Char, l.length ≤ n →
      ∀ f ∈ telegramChunks l, f.length ≤ 4000 := by
    intro n
    induction n with
    | zero =>
      intro l hl f hf
      have hnil : l = [] := List.length_eq_zero.mp (Nat.le_zero.mp hl)
      subst hnil
      simp [telegramChunks] at hf
    | succ n ih =>
      intro l hl f hf
      cases l with
      | nil => simp [telegramChunks] at hf
      | cons c cs =>
        have hd : ((c :: cs).drop 4000).length ≤ n := by
          simp only [List.length_drop, List.length_cons]
          simp only [List.length_cons] at hl
          omega
        rw [telegramChunks_cons] at hf
        rcases List.mem_cons.mp hf with h1 | h2
        · subst h1
          simp only [List.length_take, List.length_cons]
          omega
        · exact ih _ hd f h2
  exact h l.length l (Nat.le_refl _)

theorem telegramChunks_count (l : List Char) :
    (telegramChunks l).length = (l.length + 3999) / 4000 := by
  have h : ∀ n, ∀ l : List Char, l.length ≤ n →
      (telegramChunks l).length = (l.length + 3999) / 4000 := by
    intro n
    induction n with
    | zero =>
      intro l hl
      have hnil : l = [] := List.length_eq_zero.mp (Nat.le_zero.mp hl)
      subst hnil
      simp [telegramChunks]
    | succ n ih =>
      intro l hl
      cases l with
      | nil => simp [telegramChunks]
      | cons c cs =>
        have hd : ((c :: cs).drop 4000).length ≤ n := by
          simp only [List.length_drop, List.length_cons]
          simp only [List.length_cons] at hl
          omega
        rw [telegramChunks_cons]
        simp only [List.length_cons, ih _ hd, List.length_drop]
        omega
  exact h l.length l (Nat.le_refl _)

/-! ### Claim theorems -/

/-- C1: chunker round-trip.  For every rendered response text `T` (as its
code-point sequence) with maxSize 4000, the fragments produced by the
split step concatenate back to `T` exactly, every fragment holds at most
4000 code points, and a 9000-code-point text splits into exactly 3
fragments.  Fragments are contiguous code-point slices, so no boundary
can fall inside a multi-byte character. -/
theorem c1_chunker_roundtrip (T : List Char) :
    (splitStep T).flatten = T ∧
    (∀ f ∈ splitStep T, f.length ≤ 4000) ∧
    (T.length = 9000 → (splitStep T).length = 3) := by
  refine ⟨?_, ?_, ?_⟩
  · unfold splitStep
    by_cases h : T.length > 4000
    · simp [h, telegramChunks_join]
    · simp [h]
  · intro f hf
    unfold splitStep at hf
    by_cases h : T.length > 4000
    · rw [if_pos h] at hf
      exact telegramChunks_sizes T f hf
    · rw [if_neg h] at hf
      have hfT : f = T := by simpa using hf
      subst hfT
      omega
  · intro h9
    have h : T.length > 4000 := by omega
    unfold splitStep
    rw [if_pos h, telegramChunks_count, h9]

/-- Witness for C1 at a concrete 9000-character text. -/
theorem c1_chunker_roundtrip_witness :
    (splitStep (List.replicate 9000 'a')).length = 3 :=
  (c1_chunker_roundtrip (List.replicate 9000 'a')).2.2
    (by simp only [List.length_replicate])

theorem geminiChat_provider (bot : AIChatBot) (msg : String) (gNet : GeminiNet) :
    ((geminiChat bot msg gNet).1).provider = Provider.gemini := by
  unfold geminiChat
  (repeat' split) <;> rfl

theorem grokChat_provider (bot : AIChatBot) (msg : String) (kNet : GrokNet) :
    ((grokChat bot msg kNet).1).provider = Provider.grok := by
  unfold grokChat
  (repeat' split) <;> rfl

/-- C2: in `both_ai` mode the aggregated response holds exactly one result
per provider, in dispatch order `[gemini, grok]` (completion order cannot
differ from dispatch order — the source awaits the calls sequentially),
and changing the Grok outcome or Grok configuration never changes the
Gemini entry, and vice versa: one provider failing (unconfigured or by
exception) leaves the other entry intact. -/
theorem c2_allbackends_aggregation (bot : AIChatBot) (msg : String)
    (gNet : GeminiNet) (kNet : GrokNet) :
    (dispatch bot msg gNet kNet "both_ai").results.map BackendResult.provider =
        [Provider.gemini, Provider.grok] ∧
    (∀ kNet2 kk2,
      (dispatch { bot with grokApiKey := kk2 } msg gNet kNet2 "both_ai").results.get? 0 =
        (dispatch bot msg gNet kNet "both_ai").results.get? 0) ∧
    (∀ gNet2 gm2,
      (dispatch { bot with geminiModel := gm2 } msg gNet2 kNet "both_ai").results.get? 1 =
        (dispatch bot msg gNet kNet "both_ai").results.get? 1) := by
  refine ⟨?_, fun kNet2 kk2 => rfl, fun gNet2 gm2 => rfl⟩
  show [((geminiChat bot msg gNet).1).provider, ((grokChat bot msg kNet).1).provider] =
    [Provider.gemini, Provider.grok]
  rw [geminiChat_provider, grokChat_provider]

/-- C3 counterexample: with a configured bot and a successful Gemini
response `"hi"`, the single-backend (`gemini`) rendered text is the
labelled string, not the bare backend text — the claim's "renders bare"
is false on the code. -/
theorem c3_single_not_bare_cx :
    (dispatch fullBot "q" (GeminiNet.ok "hi") (GrokNet.netError "e") "gemini").final =
        some ("🔷 *Gemini Pro:*\nhi") ∧
    some ("🔷 *Gemini Pro:*\nhi") ≠ some ("hi" : String) :=
  ⟨rfl, by decide⟩

/-- C3 amended: single-backend responses also render with the
per-provider label (never bare); multi-backend responses render each
result with its per-provider label, separated by a blank line (the
`"\n\n"` join separator), after a one-off `"\n\n" + "═" * 30` prefix. -/
theorem c3_rendering_policy (bot : AIChatBot) (msg : String)
    (gNet : GeminiNet) (kNet : GrokNet) :
    (dispatch bot msg gNet kNet "gemini").final =
        some (geminiLabel ++ ((geminiChat bot msg gNet).1).text) ∧
    (dispatch bot msg gNet kNet "grok").final =
        some (grokLabel ++ ((grokChat bot msg kNet).1).text) ∧
    (dispatch bot msg gNet kNet "both_ai").final =
        some ("\n\n" ++ separatorBar ++
          ((geminiLabel ++ ((geminiChat bot msg gNet).1).text ++ "\n\n") ++
            (grokLabel ++ ((grokChat bot msg kNet).1).text))) :=
  ⟨rfl, rfl, rfl⟩

/-- C4 counterexample: with only Grok configured, a fresh session's mode
still resolves to `"gemini"`, while the first available provider is
Grok — the default is not "the first available provider". -/
theorem c4_default_not_first_available_cx :
    getMode emptyStore 0 = "gemini" ∧
    (availableProviders grokOnlyBot).head? = some Provider.grok ∧
    providerName Provider.grok ≠ "gemini" :=
  ⟨rfl, rfl, by decide⟩

/-- C4 amended: for every session with no prior selection, resolving the
mode returns the fixed configured default `"gemini"` — the first provider
in the canonical dispatch order, regardless of availability — and
routing a message neither changes the store nor the mode subsequent
reads observe. -/
theorem c4_default_mode (store : Store) (sid : Nat) (h : store sid = none)
    (bot : AIChatBot) (msg : String) (gNet : GeminiNet) (kNet : GrokNet) :
    getMode store sid = "gemini" ∧
    (canonicalProviders.map providerName).head? = some (getMode store sid) ∧
    (handleMessage bot msg gNet kNet store sid).store = store ∧
    getMode (handleMessage bot msg gNet kNet store sid).store sid = getMode store sid := by
  have hm : getMode store sid = "gemini" := by simp [getMode, h]
  exact ⟨hm, by rw [hm]; rfl, rfl, rfl⟩

/-- Witness for C4 amended at the empty store. -/
theorem c4_default_mode_witness :
    getMode emptyStore 0 = "gemini" ∧
    (canonicalProviders.map providerName).head? = some (getMode emptyStore 0) ∧
    (handleMessage fullBot "m" (GeminiNet.ok "t") (GrokNet.netError "e") emptyStore 0).store =
      emptyStore ∧
    getMode (handleMessage fullBot "m" (GeminiNet.ok "t") (GrokNet.netError "e") emptyStore 0).store 0 =
      getMode emptyStore 0 :=
  c4_default_mode emptyStore 0 rfl fullBot "m" (GeminiNet.ok "t") (GrokNet.netError "e")

/-- C5: an adapter whose provider has no configured credential (missing,
empty, or placeholder key) returns the "not configured" failure without
making a network call (`false` second component). -/
theorem c5_not_configured_no_network (gk kk : Option String) (msg : String)
    (gNet : GeminiNet) (kNet : GrokNet) :
    ((gk = none ∨ gk = some "" ∨ gk = some "your_gemini_api_key_here") →
      geminiChat (initBot gk kk) msg gNet =
        (.failure .gemini geminiNotConfiguredMsg, false)) ∧
    ((kk = none ∨ kk = some "" ∨ kk = some "your_grok_api_key_here") →
      grokChat (initBot gk kk) msg kNet =
        (.failure .grok grokNotConfiguredMsg, false)) := by
  constructor
  · rintro (rfl | rfl | rfl) <;> rfl
  · rintro (rfl | rfl | rfl) <;> rfl

/-- Witness for C5 with both keys absent. -/
theorem c5_not_configured_no_network_witness :
    geminiChat (initBot none none) "hello" (GeminiNet.ok "t") =
      (.failure .gemini geminiNotConfiguredMsg, false) ∧
    grokChat (initBot none none) "hello" (GrokNet.netError "e") =
      (.failure .grok grokNotConfiguredMsg, false) :=
  ⟨(c5_not_configured_no_network none none "hello" (GeminiNet.ok "t")
      (GrokNet.netError "e")).1 (Or.inl rfl),
   (c5_not_configured_no_network none none "hello" (GeminiNet.ok "t")
      (GrokNet.netError "e")).2 (Or.inl rfl)⟩

/-- Whether the Gemini SDK call outcome is an error condition. -/
def GeminiNet.isError : GeminiNet → Bool
  | .ok _ => false
  | .exn _ => true

/-- Whether the Grok HTTP outcome is an error condition: network
exception, non-200 status, or malformed (unparseable) body. -/
def GrokNet.isError : GrokNet → Bool
  | .response status _ (.ok _) => status != 200
  | .response _ _ (.error _) => true
  | .netError _ => true

/-- C6: every adapter error condition — network failure, non-2xx status,
malformed body, provider refusal (raised by the SDK) — yields a
`Failure` result carrying the provider; the adapters are total functions
into `BackendResult`, so no exception ever reaches the caller (every
raise in the source body is inside the `try` whose `except` returns the
error string). -/
theorem c6_errors_become_failures (bot : AIChatBot) (msg : String)
    (gNet : GeminiNet) (kNet : GrokNet) :
    (GeminiNet.isError gNet = true →
      ((geminiChat bot msg gNet).1).isFailure = true ∧
      ((geminiChat bot msg gNet).1).provider = Provider.gemini) ∧
    (GrokNet.isError kNet = true →
      ((grokChat bot msg kNet).1).isFailure = true ∧
      ((grokChat bot msg kNet).1).provider = Provider.grok) := by
  constructor
  · intro h
    cases gNet with
    | ok t => simp [GeminiNet.isError] at h
    | exn e =>
      by_cases hb : bot.geminiModel = false <;>
        simp [geminiChat, hb, BackendResult.isFailure, BackendResult.provider]
  · intro h
    cases hk : bot.grokApiKey with
    | none => simp [grokChat, hk, BackendResult.isFailure, BackendResult.provider]
    | some k =>
      by_cases hke : k = ""
      · simp [grokChat, hk, hke, BackendResult.isFailure, BackendResult.provider]
      · cases kNet with
        | netError e =>
          simp [grokChat, hk, hke, BackendResult.isFailure, BackendResult.provider]
        | response status raw content =>
          cases content with
          | error e =>
            by_cases hs : status = 200 <;>
              simp [grokChat, hk, hke, hs, BackendResult.isFailure,
                BackendResult.provider]
          | ok t =>
            have hs : ¬ status = 200 := by
              simp only [GrokNet.isError, bne_iff_ne, ne_eq] at h
              exact h
            simp [grokChat, hk, hke, hs, BackendResult.isFailure,
              BackendResult.provider]

/-- Witness for C6: a raised Gemini exception and a Grok HTTP 500 both
come back as failures. -/
theorem c6_errors_become_failures_witness :
    ((geminiChat fullBot "m" (GeminiNet.exn "boom")).1).isFailure = true ∧
    ((grokChat fullBot "m" (GrokNet.response 500 "err" (Except.error "x"))).1).isFailure = true :=
  ⟨((c6_errors_become_failures fullBot "m" (GeminiNet.exn "boom")
      (GrokNet.response 500 "err" (Except.error "x"))).1 rfl).1,
   ((c6_errors_become_failures fullBot "m" (GeminiNet.exn "boom")
      (GrokNet.response 500 "err" (Except.error "x"))).2 rfl).1⟩

/-- C7: a session whose selected mode is `"gemini"` routes only to the
Gemini adapter; the Grok adapter is never invoked. -/
theorem c7_single_gemini_routes_only_gemini (bot : AIChatBot) (msg : String)
    (gNet : GeminiNet) (kNet : GrokNet) (store : Store) (sid : Nat)
    (h : getMode store sid = "gemini") :
    (handleMessage bot msg gNet kNet store sid).invoked = [Provider.gemini] ∧
    Provider.grok ∉ (handleMessage bot msg gNet kNet store sid).invoked := by
  have h1 : (handleMessage bot msg gNet kNet store sid).invoked = [Provider.gemini] := by
    show (dispatch bot msg gNet kNet (getMode store sid)).invoked = [Provider.gemini]
    rw [h]
    rfl
  exact ⟨h1, by rw [h1]; decide⟩

/-- Witness for C7: a session that explicitly selected `"gemini"`. -/
theorem c7_single_gemini_routes_only_gemini_witness :
    (handleMessage fullBot "m" (GeminiNet.ok "t") (GrokNet.netError "e")
      (setMode emptyStore 7 "gemini") 7).invoked = [Provider.gemini] ∧
    Provider.grok ∉ (handleMessage fullBot "m" (GeminiNet.ok "t") (GrokNet.netError "e")
      (setMode emptyStore 7 "gemini") 7).invoked :=
  c7_single_gemini_routes_only_gemini fullBot "m" (GeminiNet.ok "t")
    (GrokNet.netError "e") (setMode emptyStore 7 "gemini") 7 rfl

/-- C8: frame property of the session mode.  Routing a message returns
the store unchanged (`handle_message` only reads `ai_choice`), and the
mode-selection action for session `s1` leaves every other session `s2`
exactly as it was (the `help` / `start_chat` early returns write
nothing; the selection branch writes only key `s1`). -/
theorem c8_session_mode_frame (bot : AIChatBot) (msg : String)
    (gNet : GeminiNet) (kNet : GrokNet) (store : Store) (sid s1 s2 : Nat)
    (choice : String) (h : s2 ≠ s1) :
    (handleMessage bot msg gNet kNet store sid).store = store ∧
    (buttonHandler store s1 choice).1 s2 = store s2 := by
  refine ⟨rfl, ?_⟩
  unfold buttonHandler
  by_cases h1 : choice = "help"
  · simp [h1]
  · by_cases h2 : choice = "start_chat"
    · simp [h1, h2]
    · cases hinfo : aiInfoName choice <;>
        simp [h1, h2, hinfo, setMode, h]

/-- Witness for C8 at two distinct sessions. -/
theorem c8_session_mode_frame_witness :
    (handleMessage fullBot "m" (GeminiNet.ok "t") (GrokNet.netError "e") emptyStore 0).store =
      emptyStore ∧
    (buttonHandler emptyStore 1 "grok").1 2 = emptyStore 2 :=
  c8_session_mode_frame fullBot "m" (GeminiNet.ok "t") (GrokNet.netError "e")
    emptyStore 0 1 2 "grok" (by decide)

/-- C9 counterexample: with both backends configured and each network
call taking 1000 ms, the `both_ai` dispatch takes 2000 ms — not bounded
by the slowest backend (1000 ms) as the concurrency claim requires. -/
theorem c9_sequential_latency_cx :
    dispatchLatency fullBot "m" (GeminiNet.ok "t")
      (GrokNet.response 200 "" (Except.ok "u")) "both_ai" 1000 1000 = 2000 ∧
    ¬ (dispatchLatency fullBot "m" (GeminiNet.ok "t")
      (GrokNet.response 200 "" (Except.ok "u")) "both_ai" 1000 1000 ≤
        slowestBackendBound 1000 1000) :=
  ⟨rfl, by decide⟩

/-- C9 amended: in `both_ai` mode the adapters are invoked sequentially
(the second await starts only after the first completes), so total
dispatch latency is the sum of the backend latencies, strictly above the
slowest-backend bound whenever both calls take time: two ~1s backends
complete in ~2s, not ~1s. -/
theorem c9_sequential_latency (dg dk : Nat) (hg : 0 < dg) (hk : 0 < dk)
    (msg : String) (gNet : GeminiNet) (kNet : GrokNet) :
    dispatchLatency fullBot msg gNet kNet "both_ai" dg dk = dg + dk ∧
    slowestBackendBound dg dk < dg + dk := by
  have hgm : (geminiChat fullBot msg gNet).2 = true := by cases gNet <;> rfl
  have hkm : (grokChat fullBot msg kNet).2 = true := by
    cases kNet with
    | netError e => rfl
    | response status raw content =>
      by_cases hs : status = 200
      · cases content <;> simp [grokChat, fullBot, hs]
      · simp [grokChat, fullBot, hs]
  constructor
  · simp [dispatchLatency, hgm, hkm]
  · simp only [slowestBackendBound]
    omega

/-- Witness for C9 amended at 1000 ms each. -/
theorem c9_sequential_latency_witness :
    dispatchLatency fullBot "m" (GeminiNet.ok "t")
      (GrokNet.response 200 "" (Except.ok "u")) "both_ai" 1000 1000 = 1000 + 1000 ∧
    slowestBackendBound 1000 1000 < 1000 + 1000 :=
  c9_sequential_latency 1000 1000 (by decide) (by decide) "m"
    (GeminiNet.ok "t") (GrokNet.response 200 "" (Except.ok "u"))

/-- C10: for every callback datum outside
`help, start_chat, gemini, grok, both_ai` (e.g. the bot's own
`switch_ai` / `new_question` buttons), `button_handler` first stores the
datum as the session's mode and only then fails with `KeyError` on the
`ai_info` lookup; afterwards every routed message for that session
matches no dispatch branch, invokes no adapter, and yields the generic
error reply. -/
theorem c10_unknown_callback (store : Store) (sid : Nat) (choice : String)
    (h1 : choice ≠ "help") (h2 : choice ≠ "start_chat") (h3 : choice ≠ "gemini")
    (h4 : choice ≠ "grok") (h5 : choice ≠ "both_ai")
    (bot : AIChatBot) (msg : String) (gNet : GeminiNet) (kNet : GrokNet) :
    buttonHandler store sid choice =
      (setMode store sid choice, ButtonOutcome.keyError choice) ∧
    (handleMessage bot msg gNet kNet (setMode store sid choice) sid).invoked = [] ∧
    (handleMessage bot msg gNet kNet (setMode store sid choice) sid).reply =
      Reply.errorReply := by
  have hmode : getMode (setMode store sid choice) sid = choice := by
    simp [getMode, setMode]
  have hdisp : dispatch bot msg gNet kNet choice =
      { results := [], final := none, invoked := [] } := by
    simp [dispatch, h3, h4, h5]
  refine ⟨?_, ?_, ?_⟩
  · simp [buttonHandler, h1, h2, aiInfoName, h3, h4, h5]
  · show (dispatch bot msg gNet kNet (getMode (setMode store sid choice) sid)).invoked = []
    rw [hmode, hdisp]
  · show (match (dispatch bot msg gNet kNet (getMode (setMode store sid choice) sid)).final with
      | some final =>
        if final.toList.length > 4000 then Reply.fragments (telegramChunks final.toList)
        else Reply.single final.toList
      | none => Reply.errorReply) = Reply.errorReply
    rw [hmode, hdisp]

/-- Witness for C10 at the `switch_ai` button the bot itself attaches. -/
theorem c10_unknown_callback_witness :
    buttonHandler emptyStore 5 "switch_ai" =
      (setMode emptyStore 5 "switch_ai", ButtonOutcome.keyError "switch_ai") ∧
    (handleMessage fullBot "m" (GeminiNet.ok "t") (GrokNet.netError "e")
      (setMode emptyStore 5 "switch_ai") 5).invoked = [] ∧
    (handleMessage fullBot "m" (GeminiNet.ok "t") (GrokNet.netError "e")
      (setMode emptyStore 5 "switch_ai") 5).reply = Reply.errorReply :=
  c10_unknown_callback emptyStore 5 "switch_ai" (by decide) (by decide)
    (by decide) (by decide) (by decide) fullBot "m" (GeminiNet.ok "t")
    (GrokNet.netError "e")

end Bot
